import Mathlib

/-!
Shallow embedding of the kinematics solvers and the calculation-history
component of `HighSchool_Physic_Assistant_Improve.py`.

Numeric values are modelled as exact rationals (`ℚ`); results of the Python
`math.sqrt`
results are kept symbolic through the constructor `Val.sqrt`, since every
source branch that calls `math.sqrt` first guards (or is analysed under a
guard) against a negative radicand.  A raised `ValueError` is modelled as
`Except.error` with one constructor per raise site.
-/

namespace Phys

/-- Errors raised by the calculators, one constructor per `raise` site of the
source (identified by its message string). -/
inductive PhysError where
  /-- "You must provide exactly 2 values!" -/
  | mustProvideTwo
  /-- "Time cannot be zero!" -/
  | timeZero
  /-- "Speed cannot be zero!" -/
  | speedZero
  /-- "Acceleration cannot be zero!" -/
  | accelZero
  /-- "Distance cannot be zero!" -/
  | distanceZero
  /-- "Cannot calculate square root of negative number!" -/
  | negativeSqrt
  /-- "Insufficient data or invalid combination of inputs!" -/
  | insufficientData
  /-- Python `math.sqrt` applied to a negative argument ("math domain error"). -/
  | mathDomain
deriving DecidableEq, Repr

/-- Classification of the error kinds per the design: a ValidationError is a
wrong count of knowns or no matching formula branch. -/
def PhysError.isValidation : PhysError → Bool
  | .mustProvideTwo => true
  | .insufficientData => true
  | _ => false

/-- Classification of the error kinds per the design: a DomainError is a
division by a physically-zero denominator or a negative square root. -/
def PhysError.isDomain : PhysError → Bool
  | .timeZero => true
  | .speedZero => true
  | .accelZero => true
  | .distanceZero => true
  | .negativeSqrt => true
  | .mathDomain => true
  | _ => false

/-- A computed value: either a plain rational or the (irrational in general)
square root of a rational, written symbolically. -/
inductive Val where
  | num (q : ℚ)
  | sqrt (q : ℚ)
deriving DecidableEq, Repr

/-- `sum(val is None for val in lst)` of the source. -/
def noneCount : List (Option ℚ) → ℕ
  | [] => 0
  | none :: rest => noneCount rest + 1
  | some _ :: rest => noneCount rest

namespace Constant

/-- `Constant.GRAVITY_FORCE = 9.8` of the source. -/
def GRAVITY_FORCE : ℚ := 9.8

end Constant

/-! ## Motion (v = s / t) -/

/-- The input set collected by `Motion.get_inputs` (a skipped prompt is
`none`). -/
structure MotionInput where
  speed : Option ℚ
  time : Option ℚ
  distance : Option ℚ
deriving DecidableEq, Repr

/-- The single entry `Motion.calculate` writes into `self.results`. -/
structure MotionResult where
  quantity : String
  value : ℚ
deriving DecidableEq, Repr

namespace Motion

/-- Embedding of `Motion.calculate` (source lines 171-193): count gate, then
the `speed is None` / `distance is None` / `time is None` branch chain with
its two zero-denominator guards. -/
def calculate (inp : MotionInput) : Except PhysError MotionResult :=
  if noneCount [inp.speed, inp.time, inp.distance] ≠ 1 then
    .error .mustProvideTwo
  else
    match inp.speed, inp.time, inp.distance with
    | none, some t, some d =>
        if t = 0 then .error .timeZero else .ok ⟨"speed", d / t⟩
    | some sp, some t, none =>
        .ok ⟨"distance", sp * t⟩
    | some sp, none, some d =>
        if sp = 0 then .error .speedZero else .ok ⟨"time", d / sp⟩
    | _, _, _ => .error .mustProvideTwo

end Motion

/-! ## EquationOfMotion -/

/-- The input set collected by `EquationOfMotion.get_inputs`. -/
structure EqInput where
  initial_velocity : Option ℚ
  final_velocity : Option ℚ
  acceleration : Option ℚ
  time : Option ℚ
  distance : Option ℚ
deriving DecidableEq, Repr

/-- The entries `EquationOfMotion.calculate` writes into `self.results`: one
solved quantity plus the formula label. -/
structure EqResult where
  quantity : String
  value : Val
  formula : String
deriving DecidableEq, Repr

namespace EquationOfMotion

/-- Embedding of `EquationOfMotion.calculate` (source lines 222-307): the
eleven-branch `if`/`elif` chain, in source order, matched on the presence
pattern `(final_velocity, initial_velocity, acceleration, time, distance)`;
the final `else` raises "Insufficient data or invalid combination of
inputs!".  The ordered match arms of Lean reproduce the `elif` shadowing
exactly. -/
def calculate (inp : EqInput) : Except PhysError EqResult :=
  match inp.final_velocity, inp.initial_velocity, inp.acceleration,
      inp.time, inp.distance with
  -- v = u + at
  | none, some u, some a, some t, _ =>
      .ok ⟨"final_velocity", .num (u + a * t), "v = u + at"⟩
  | some v, none, some a, some t, _ =>
      .ok ⟨"initial_velocity", .num (v - a * t), "v = u + at"⟩
  | some v, some u, none, some t, _ =>
      if t = 0 then .error .timeZero
      else .ok ⟨"acceleration", .num ((v - u) / t), "v = u + at"⟩
  | some v, some u, some a, none, _ =>
      if a = 0 then .error .accelZero
      else .ok ⟨"time", .num ((v - u) / a), "v = u + at"⟩
  -- s = ut + 0.5at²
  | _, some u, some a, some t, none =>
      .ok ⟨"distance", .num (u * t + 0.5 * (a * t ^ 2)), "s = ut + 0.5at²"⟩
  | _, none, some a, some t, some s =>
      if t = 0 then .error .timeZero
      else .ok ⟨"initial_velocity", .num ((s - 0.5 * a * t ^ 2) / t),
        "s = ut + 0.5at²"⟩
  | _, some u, none, some t, some s =>
      if t = 0 then .error .timeZero
      else .ok ⟨"acceleration", .num (2 * (s - u * t) / t ^ 2),
        "s = ut + 0.5at²"⟩
  -- v² = u² + 2as
  | none, some u, some a, _, some s =>
      if u ^ 2 + 2 * a * s < 0 then .error .negativeSqrt
      else .ok ⟨"final_velocity", .sqrt (u ^ 2 + 2 * a * s), "v² = u² + 2as"⟩
  | some v, none, some a, _, some s =>
      if v ^ 2 - 2 * a * s < 0 then .error .negativeSqrt
      else .ok ⟨"initial_velocity", .sqrt (v ^ 2 - 2 * a * s),
        "v² = u² + 2as"⟩
  | some v, some u, none, _, some s =>
      if s = 0 then .error .distanceZero
      else .ok ⟨"acceleration", .num ((v ^ 2 - u ^ 2) / (2 * s)),
        "v² = u² + 2as"⟩
  -- The final source branch (find s via v² = u² + 2as, lines 296-301) is
  -- unreachable: its condition (v, u, a present, s absent) is subsumed by
  -- the earlier find-t branch (t absent) or find-s branch of
  -- s = ut + 0.5at² (t present); Lean rejects the arm as redundant.
  | _, _, _, _, _ => .error .insufficientData

end EquationOfMotion

/-- Eligibility condition of formula (1) `v = u + at` as the spec words it:
exactly one absent among its four required quantities. -/
def specElig1 (inp : EqInput) : Bool :=
  noneCount [inp.initial_velocity, inp.final_velocity, inp.acceleration,
    inp.time] == 1

/-- Eligibility condition of formula (2) `s = ut + 0.5at²` as the spec words
it: exactly one absent among its four required quantities. -/
def specElig2 (inp : EqInput) : Bool :=
  noneCount [inp.distance, inp.initial_velocity, inp.time,
    inp.acceleration] == 1

/-- Eligibility condition of formula (3) `v² = u² + 2as` as the spec words
it: exactly one absent among its four required quantities. -/
def specElig3 (inp : EqInput) : Bool :=
  noneCount [inp.final_velocity, inp.initial_velocity, inp.acceleration,
    inp.distance] == 1

/-! ## FreeFall -/

/-- The input set collected by `FreeFall.get_inputs`. -/
structure FreeFallInput where
  final_velocity : Option ℚ
  height : Option ℚ
  time : Option ℚ
deriving DecidableEq, Repr

/-- The entries `FreeFall.calculate` writes into `self.results`: one solved
quantity plus the formula label. -/
structure FreeFallResult where
  quantity : String
  value : Val
  formula : String
deriving DecidableEq, Repr

namespace FreeFall

/-- Embedding of `FreeFall.calculate` (source lines 334-384): count gate,
then the six-branch `if`/`elif` chain in source order; `math.sqrt` of a
negative argument raises in Python, modelled as `PhysError.mathDomain`. -/
def calculate (inp : FreeFallInput) : Except PhysError FreeFallResult :=
  if noneCount [inp.final_velocity, inp.height, inp.time] ≠ 1 then
    .error .mustProvideTwo
  else
    match inp.final_velocity, inp.height, inp.time with
    | none, _, some t =>
        .ok ⟨"final_velocity", .num (Constant.GRAVITY_FORCE * t), "v = gt"⟩
    | some v, _, none =>
        .ok ⟨"time", .num (v / Constant.GRAVITY_FORCE), "v = gt"⟩
    | none, some h, _ =>
        if 2 * Constant.GRAVITY_FORCE * h < 0 then .error .mathDomain
        else .ok ⟨"final_velocity", .sqrt (2 * Constant.GRAVITY_FORCE * h),
          "v² = 2gh"⟩
    | some v, none, _ =>
        .ok ⟨"height", .num (v ^ 2 / (2 * Constant.GRAVITY_FORCE)),
          "v² = 2gh"⟩
    -- The two `h = 0.5gt²` source branches (lines 371-378) are
    -- unreachable: each is subsumed by an earlier branch of the chain
    -- (height absent with time known implies the v² = 2gh height branch or
    -- the v = gt branch fired first, and symmetrically for time absent);
    -- Lean rejects both arms as redundant.
    | _, _, _ => .error .insufficientData

end FreeFall

/-! ## CalculationHistory -/

/-- One element of `CalculationHistory.history` (the dict built by
`add_calculation`); result values may be numbers or the formula-label
string, so they are tagged. -/
inductive HVal where
  | num (q : ℚ)
  | root (q : ℚ)
  | str (s : String)
deriving DecidableEq, Repr

/-- A history entry `{timestamp, topic, inputs, results}`. -/
structure HistoryEntry where
  timestamp : String
  topic : String
  inputs : List (String × Option ℚ)
  results : List (String × HVal)
deriving DecidableEq, Repr

/-- The state relevant to persistence: the in-memory `self.history` list and
the contents of the JSON file on disk. -/
structure HistoryState where
  history : List HistoryEntry
  file : List HistoryEntry
deriving DecidableEq, Repr

namespace CalculationHistory

/-- Embedding of `CalculationHistory.save_history` (source lines 42-48):
rewrite the file wholesale from memory (clean I/O path). -/
def save_history (st : HistoryState) : HistoryState :=
  { st with file := st.history }

/-- Embedding of `CalculationHistory.add_calculation` (source lines 32-40):
build the entry and append it to the in-memory list.  The source method does
not call `save_history`. -/
def add_calculation (st : HistoryState) (ts topic : String)
    (inputs : List (String × Option ℚ)) (results : List (String × HVal)) :
    HistoryState :=
  { st with history := st.history ++ [⟨ts, topic, inputs, results⟩] }

/-- Embedding of `CalculationHistory.clear_history` (source lines 73-77):
empty the in-memory list, then `save_history`. -/
def clear_history (st : HistoryState) : HistoryState :=
  save_history { st with history := [] }

/-- Embedding of `CalculationHistory.__exit__` (source lines 26-30), the
clean-shutdown path of the context manager: `save_history`. -/
def exit_save (st : HistoryState) : HistoryState :=
  save_history st

end CalculationHistory

end Phys

open Phys

/-! ## Claims -/

/-- C2: for the Motion and FreeFall solvers, every input set in which the
number of absent quantities is not exactly 1 yields the ValidationError
"must provide exactly 2 values" and never a computed Result. -/
theorem motion_freefall_count_gate (sp t d fv h ft : Option ℚ)
    (hm : noneCount [sp, t, d] ≠ 1) (hf : noneCount [fv, h, ft] ≠ 1) :
    Motion.calculate ⟨sp, t, d⟩ = .error .mustProvideTwo ∧
    FreeFall.calculate ⟨fv, h, ft⟩ = .error .mustProvideTwo ∧
    PhysError.isValidation .mustProvideTwo = true := by
  refine ⟨?_, ?_, rfl⟩ <;> simp [Motion.calculate, FreeFall.calculate, hm, hf]

/-- Witness for C2 at the all-absent input. -/
theorem motion_freefall_count_gate_wit :
    (noneCount [none, none, none] ≠ 1 ∧ noneCount [none, none, none] ≠ 1) ∧
    (Motion.calculate ⟨none, none, none⟩ = .error .mustProvideTwo ∧
     FreeFall.calculate ⟨none, none, none⟩ = .error .mustProvideTwo ∧
     PhysError.isValidation .mustProvideTwo = true) :=
  ⟨⟨by decide, by decide⟩,
   motion_freefall_count_gate none none none none none none
     (by decide) (by decide)⟩

/-- C8: the Motion solver, solving for speed with time = 0, fails with the
DomainError "time cannot be zero"; solving for time with speed = 0 fails
with the DomainError "speed cannot be zero"; in both cases the guard fires
before any division is attempted. -/
theorem motion_zero_guards (d : ℚ) :
    Motion.calculate ⟨none, some 0, some d⟩ = .error .timeZero ∧
    Motion.calculate ⟨some 0, none, some d⟩ = .error .speedZero ∧
    PhysError.isDomain .timeZero = true ∧
    PhysError.isDomain .speedZero = true := by
  refine ⟨?_, ?_, rfl, rfl⟩ <;> simp [Motion.calculate, noneCount]

/-- C9: every FreeFall input set with exactly one absent quantity succeeds,
and the result is fully determined by which quantity is absent:
final_velocity absent gives g*t with label "v = gt", time absent gives v/g
with label "v = gt", height absent gives v²/(2g) with label "v² = 2gh";
no "h = 0.5gt²" branch and no error is reachable under this precondition. -/
theorem freefall_one_absent_det (v h t : ℚ) :
    FreeFall.calculate ⟨none, some h, some t⟩ =
      .ok ⟨"final_velocity", .num (Constant.GRAVITY_FORCE * t), "v = gt"⟩ ∧
    FreeFall.calculate ⟨some v, some h, none⟩ =
      .ok ⟨"time", .num (v / Constant.GRAVITY_FORCE), "v = gt"⟩ ∧
    FreeFall.calculate ⟨some v, none, some t⟩ =
      .ok ⟨"height", .num (v ^ 2 / (2 * Constant.GRAVITY_FORCE)), "v² = 2gh"⟩ ∧
    Constant.GRAVITY_FORCE = 9.8 := by
  refine ⟨?_, ?_, ?_, rfl⟩ <;> simp [FreeFall.calculate, noneCount]

/-- C3 counterexample: the input with time = 2 and the other two quantities
absent does not yield final_velocity = 19.60 as the claim states; it fails
the exactly-one-absent gate with the ValidationError "must provide exactly
2 values". -/
theorem freefall_example_cex :
    FreeFall.calculate ⟨none, none, some 2⟩ = .error .mustProvideTwo ∧
    PhysError.isValidation .mustProvideTwo = true := by
  refine ⟨?_, rfl⟩
  simp [FreeFall.calculate, noneCount]

/-- C3 amended: with exactly one absent quantity — final_velocity absent,
height present (any value) and time = 2 gives final_velocity = 19.60 via
"v = gt"; height absent with final_velocity = 19.6 and time = 2 gives
height = 19.60, computed via "v² = 2gh" (numerically equal to
0.5*9.8*2²). -/
theorem freefall_example_amended (hh : ℚ) :
    FreeFall.calculate ⟨none, some hh, some 2⟩ =
      .ok ⟨"final_velocity", .num 19.6, "v = gt"⟩ ∧
    FreeFall.calculate ⟨some 19.6, none, some 2⟩ =
      .ok ⟨"height", .num 19.6, "v² = 2gh"⟩ := by
  constructor <;>
    simp [FreeFall.calculate, noneCount, Constant.GRAVITY_FORCE] <;> norm_num

/-- C4 counterexample: appending a History Entry via add_calculation does
not rewrite the persisted file — starting from an empty log with an empty
file, the in-memory sequence becomes the one-entry list while the file
stays empty, so the durable contents do not equal the in-memory sequence
after this mutation. -/
theorem history_flush_on_add_cex :
    (CalculationHistory.add_calculation ⟨[], []⟩ "2024-01-01 00:00:00"
        "Motion" [("speed", some 1)] [("distance", .num 2)]).history =
      [⟨"2024-01-01 00:00:00", "Motion", [("speed", some 1)],
        [("distance", .num 2)]⟩] ∧
    (CalculationHistory.add_calculation ⟨[], []⟩ "2024-01-01 00:00:00"
        "Motion" [("speed", some 1)] [("distance", .num 2)]).file = [] ∧
    ([] : List HistoryEntry) ≠
      [⟨"2024-01-01 00:00:00", "Motion", [("speed", some 1)],
        [("distance", .num 2)]⟩] := by
  refine ⟨rfl, rfl, ?_⟩
  simp

/-- C4 amended: clear_history and the clean-shutdown save rewrite the
persisted file to equal the in-memory sequence, but add_calculation only
appends to the in-memory sequence and leaves the file untouched; appended
entries reach durable storage only at the next save (clear or shutdown). -/
theorem history_flush_amended (st : HistoryState) (ts topic : String)
    (inputs : List (String × Option ℚ)) (results : List (String × HVal)) :
    (CalculationHistory.add_calculation st ts topic inputs results).file
      = st.file ∧
    (CalculationHistory.add_calculation st ts topic inputs results).history
      = st.history ++ [⟨ts, topic, inputs, results⟩] ∧
    (CalculationHistory.clear_history st).file
      = (CalculationHistory.clear_history st).history ∧
    (CalculationHistory.exit_save st).file
      = (CalculationHistory.exit_save st).history :=
  ⟨rfl, rfl, rfl, rfl⟩

/-- C5 counterexample: the triple (speed, time, distance) = (0, 5, 0)
satisfies distance = speed*time with time ≠ 0, yet solving for time (time
absent, speed = 0 and distance = 0 known) does not return time = 5: the
speed-zero guard fails with a DomainError. -/
theorem motion_roundtrip_cex :
    (0 : ℚ) = 0 * 5 ∧ (5 : ℚ) ≠ 0 ∧
    Motion.calculate ⟨some 0, none, some 0⟩ = .error .speedZero ∧
    PhysError.isDomain .speedZero = true := by
  refine ⟨by norm_num, by norm_num, ?_, rfl⟩
  simp [Motion.calculate, noneCount]

/-- C5 amended: for every triple with distance = speed*time, time ≠ 0 and
additionally speed ≠ 0, solving with any one of the three quantities absent
returns exactly the omitted value (exactly, in the rational model of the
float arithmetic); the extra speed ≠ 0 proviso is forced by the
speed-zero guard on the solve-for-time path. -/
theorem motion_roundtrip_amended (sp t d : ℚ)
    (hrel : d = sp * t) (ht : t ≠ 0) (hsp : sp ≠ 0) :
    Motion.calculate ⟨none, some t, some d⟩ = .ok ⟨"speed", sp⟩ ∧
    Motion.calculate ⟨some sp, some t, none⟩ = .ok ⟨"distance", d⟩ ∧
    Motion.calculate ⟨some sp, none, some d⟩ = .ok ⟨"time", t⟩ := by
  subst hrel
  refine ⟨?_, ?_, ?_⟩
  · simp [Motion.calculate, noneCount, ht, hsp]
  · simp [Motion.calculate, noneCount]
  · simp [Motion.calculate, noneCount, ht, hsp]

/-- Witness for C5 amended at (speed, time, distance) = (20, 5, 100). -/
theorem motion_roundtrip_amended_wit :
    ((100 : ℚ) = 20 * 5 ∧ (5 : ℚ) ≠ 0 ∧ (20 : ℚ) ≠ 0) ∧
    (Motion.calculate ⟨none, some 5, some 100⟩ = .ok ⟨"speed", 20⟩ ∧
     Motion.calculate ⟨some 20, some 5, none⟩ = .ok ⟨"distance", 100⟩ ∧
     Motion.calculate ⟨some 20, none, some 100⟩ = .ok ⟨"time", 5⟩) :=
  ⟨⟨by norm_num, by norm_num, by norm_num⟩,
   motion_roundtrip_amended 20 5 100 (by norm_num) (by norm_num)
     (by norm_num)⟩

/-- C7: when the EquationOfMotion solver solves for final_velocity (or
initial_velocity) via v² = u² + 2as and the squared intermediate is
negative, it fails with the DomainError "negative square root" and returns
no computed value. -/
theorem eq_motion_negative_root (u v a s : ℚ) :
    (u ^ 2 + 2 * a * s < 0 →
      EquationOfMotion.calculate ⟨some u, none, some a, none, some s⟩ =
        .error .negativeSqrt) ∧
    (v ^ 2 - 2 * a * s < 0 →
      EquationOfMotion.calculate ⟨none, some v, some a, none, some s⟩ =
        .error .negativeSqrt) ∧
    PhysError.isDomain .negativeSqrt = true := by
  refine ⟨fun hneg => ?_, fun hneg => ?_, rfl⟩ <;>
    simp [EquationOfMotion.calculate, hneg]

/-- Witness for C7 at u = 3, a = -10, s = 5 (u² + 2as = 9 - 100 < 0). -/
theorem eq_motion_negative_root_wit :
    ((3 : ℚ) ^ 2 + 2 * (-10) * 5 < 0) ∧
    EquationOfMotion.calculate ⟨some 3, none, some (-10), none, some 5⟩ =
      .error .negativeSqrt :=
  ⟨by norm_num, (eq_motion_negative_root 3 0 (-10) 5).1 (by norm_num)⟩

/-- C10 counterexample: with initial_velocity = 0, acceleration = -1 and
distance = 1 present and final_velocity and time both absent, the solver
does not compute sqrt(u² + 2as) as the claim states: the squared
intermediate is -2 and it fails with the DomainError "negative square
root" (still not a ValidationError). -/
theorem eq_motion_two_unknown_cex :
    EquationOfMotion.calculate ⟨some 0, none, some (-1), none, some 1⟩ =
      .error .negativeSqrt ∧
    PhysError.isDomain .negativeSqrt = true ∧
    PhysError.isValidation .negativeSqrt = false := by
  refine ⟨?_, rfl, rfl⟩
  simp [EquationOfMotion.calculate]

/-- C10 amended: with initial_velocity, acceleration and distance present
and both final_velocity and time absent (two unknowns), the solver never
raises a ValidationError — the exactly-one-unknown rule is not enforced
across all five quantities: it takes the "v² = u² + 2as" branch and
computes final_velocity = sqrt(u² + 2as) whenever u² + 2as ≥ 0, failing
with the DomainError "negative square root" otherwise. -/
theorem eq_motion_two_unknown_amended (u a s : ℚ) :
    EquationOfMotion.calculate ⟨some u, none, some a, none, some s⟩ =
      (if u ^ 2 + 2 * a * s < 0 then .error .negativeSqrt
       else .ok ⟨"final_velocity", .sqrt (u ^ 2 + 2 * a * s),
         "v² = u² + 2as"⟩) ∧
    PhysError.isValidation .negativeSqrt = false :=
  ⟨rfl, rfl⟩

/-- C6: for every EquationOfMotion input set in which none of the three
formulas has exactly one absent quantity among its own required four, the
solver fails with the ValidationError "insufficient or invalid combination
of inputs" and computes nothing. -/
theorem eq_motion_no_branch_validation (inp : EqInput)
    (h1 : specElig1 inp = false) (h2 : specElig2 inp = false)
    (h3 : specElig3 inp = false) :
    EquationOfMotion.calculate inp = .error .insufficientData ∧
    PhysError.isValidation .insufficientData = true := by
  obtain ⟨u, v, a, t, s⟩ := inp
  refine ⟨?_, rfl⟩
  rcases u with _ | u <;> rcases v with _ | v <;> rcases a with _ | a <;>
    rcases t with _ | t <;> rcases s with _ | s <;>
    simp_all [specElig1, specElig2, specElig3, noneCount,
      EquationOfMotion.calculate]

/-- Witness for C6 at the all-present input (zero absent quantities). -/
theorem eq_motion_no_branch_validation_wit :
    (specElig1 ⟨some 1, some 2, some 3, some 4, some 5⟩ = false ∧
     specElig2 ⟨some 1, some 2, some 3, some 4, some 5⟩ = false ∧
     specElig3 ⟨some 1, some 2, some 3, some 4, some 5⟩ = false) ∧
    (EquationOfMotion.calculate ⟨some 1, some 2, some 3, some 4, some 5⟩ =
       .error .insufficientData ∧
     PhysError.isValidation .insufficientData = true) :=
  ⟨⟨rfl, rfl, rfl⟩,
   eq_motion_no_branch_validation ⟨some 1, some 2, some 3, some 4, some 5⟩
     rfl rfl rfl⟩

/-- C1 counterexample: for the input with initial_velocity = 0,
acceleration = 1, distance = 2 present and final_velocity and time absent,
formula (1) is not eligible and formula (2) is the first formula whose
required four have exactly one absent (time), yet the solver answers via
formula (3) with label "v² = u² + 2as" — formula (2) has no time-solving
branch, so the claimed first-eligible rule fails here. -/
theorem eq_motion_priority_cex :
    specElig1 ⟨some 0, none, some 1, none, some 2⟩ = false ∧
    specElig2 ⟨some 0, none, some 1, none, some 2⟩ = true ∧
    EquationOfMotion.calculate ⟨some 0, none, some 1, none, some 2⟩ =
      .ok ⟨"final_velocity", .sqrt 4, "v² = u² + 2as"⟩ ∧
    "v² = u² + 2as" ≠ "s = ut + 0.5at²" := by
  refine ⟨rfl, rfl, ?_, by decide⟩
  simp [EquationOfMotion.calculate]
  norm_num

/-- C1 amended: the three formulas are tried in the fixed order (1), (2),
(3) and the first applicable one determines the label of any returned
result, where formula (2) is applicable only when the sole absent quantity
among its four is not time (it has no time-solving branch; such inputs
fall through to formula (3)). -/
theorem eq_motion_priority_amended (inp : EqInput) :
    (specElig1 inp = true →
      ∀ er, EquationOfMotion.calculate inp = .ok er →
        EqResult.formula er = "v = u + at") ∧
    (specElig1 inp = false → specElig2 inp = true →
      Option.isSome inp.time = true →
      ∀ er, EquationOfMotion.calculate inp = .ok er →
        EqResult.formula er = "s = ut + 0.5at²") ∧
    (specElig1 inp = false →
      ¬(specElig2 inp = true ∧ Option.isSome inp.time = true) →
      specElig3 inp = true →
      ∀ er, EquationOfMotion.calculate inp = .ok er →
        EqResult.formula er = "v² = u² + 2as") := by
  obtain ⟨u, v, a, t, s⟩ := inp
  rcases u with _ | u <;> rcases v with _ | v <;> rcases a with _ | a <;>
    rcases t with _ | t <;> rcases s with _ | s <;>
    refine ⟨?_, ?_, ?_⟩ <;>
    simp [specElig1, specElig2, specElig3, noneCount,
      EquationOfMotion.calculate] <;>
    intro er <;> split_ifs <;> (try simp_all) <;>
    (intro hEq; subst hEq; rfl)

/-- Witness for C1 amended at an input eligible for formula (1). -/
theorem eq_motion_priority_amended_wit :
    specElig1 ⟨some 1, none, some 1, some 1, some 1⟩ = true ∧
    EqResult.formula ⟨"final_velocity", .num 2, "v = u + at"⟩ =
      "v = u + at" :=
  ⟨rfl, (eq_motion_priority_amended ⟨some 1, none, some 1, some 1, some 1⟩).1
    rfl ⟨"final_velocity", .num 2, "v = u + at"⟩ (by norm_num
      [EquationOfMotion.calculate])⟩
